import Mathlib

/-!
Verification development for `src/calculator_server.py`, a small MCP calculator
server.  The file shallowly embeds the parts of the program the claims are
about:

* the six tool handlers `add`, `subtract`, `multiply`, `divide`, `power`,
  `calculate` (lines 14-105 of the source);
* the `calculator://help` resource (lines 107-133);
* the `calculation_prompt` prompt template (lines 135-148).

`calculate` is implemented in the source as
`eval(expression, {"__builtins__": {}}, allowed_names)` followed by
`float(result)`, with every exception rewrapped as
`ValueError("Invalid expression: " + str(e))`.  Because `eval` runs full
CPython expression semantics, the embedding models the fragment of those
semantics that the claims exercise:

* literals: integers, floats (including scientific notation), strings with
  single or double quotes (without escape sequences), and the compile-time
  constants `True`, `False`, `None`, `__debug__` (CPython's compiler folds
  all four to constants before any name lookup, so `__debug__` evaluates to
  `True` even with the emptied `__builtins__`);
* the operators `+ - * / **`, unary `+`/`-`, the comparisons
  `< <= > >= == !=` (unchained), parentheses, calls, attribute access;
* name resolution against `{"abs", "max", "min", "pow", "round"}` plus the
  `__builtins__` binding (an empty dict) injected by `eval`'s globals.

Python constructs outside this fragment (`// % and or not lambda`,
subscription, comprehensions, chained comparisons, string escapes, ...) are
rejected by the model's tokenizer/parser even though CPython would accept
some of them; no theorem below evaluates such an input, and the surviving
claims about such inputs are only of the shape "returns a value or an
`Invalid expression:`-prefixed error", which holds either way.

Numeric model.  CPython floats are IEEE-754 doubles.  The model keeps finite
float values as exact fractions and models the overflow boundary exactly: a
result whose magnitude reaches 2^1024 - 2^970 (the smallest real that rounds
to infinity under round-to-nearest-even) is out of the double range.  What
happens there depends on the operation, and the model follows CPython
case by case (each verified against CPython 3.11): float `+ - * /` and
float-literal conversion overflow silently to an infinity, while float `**`
raises OverflowError("(34, 'Numerical result out of range')"), int true
division raises OverflowError("integer division result too large for a
float"), and `float(int)` raises OverflowError("int too large to convert to
float").  Rounding of in-range results to 53 bits of precision is omitted
(CPython rounds, e.g. `3.0 ** 100.0 != 3 ** 100`; the model keeps the exact
value), as is the underflow of tiny results to zero; every concrete numeric
result evaluated by a theorem in this file is exactly representable, so
these omissions are invisible to the theorems.
A positive finite base raised to a non-integral exponent has an irrational
value; the model keeps it symbolically (`PyFloat.sym b e` stands for the
double nearest to the real b^e).  Arithmetic that would have to combine such
a symbolic value is outside the modelled fragment and is mapped to an error;
no claim exercises those combinations.  A negative base with a non-integral
exponent makes CPython's `**` return a complex number; the model records
that outcome as the opaque `PyVal.complexVal` (its components are irrational
and no claim depends on them, only on the fact that a value, not an
exception, is produced).

Error values are their CPython messages with the quote characters dropped;
the only message content any claim depends on is the
`"Invalid expression: "` prefix added by `calculate` and the exact
`"Cannot divide by zero"` message raised by `divide`.
-/

namespace CalcSrv

/-- Kernel-computable fraction: numerator and denominator, kept positive on
the denominator by every constructor below, and NOT reduced to lowest terms
(reduction would need `Nat.gcd`, which the kernel cannot evaluate).
Comparisons cross-multiply, so unreduced representations compare correctly. -/
structure QQ where
  n : Int
  d : Int
deriving DecidableEq

/-- The fraction k/1. -/
def qInt (k : Int) : QQ := ⟨k, 1⟩

/-- Value equality of fractions (cross multiplication). -/
def qEqB (a b : QQ) : Bool := decide (a.n * b.d = b.n * a.d)

/-- Strict order on fractions (cross multiplication; denominators positive). -/
def qLtB (a b : QQ) : Bool := decide (a.n * b.d < b.n * a.d)

/-- Non-strict order on fractions. -/
def qLeB (a b : QQ) : Bool := decide (a.n * b.d ≤ b.n * a.d)

/-- Sum of fractions. -/
def qAdd (a b : QQ) : QQ := ⟨a.n * b.d + b.n * a.d, a.d * b.d⟩

/-- Difference of fractions. -/
def qSub (a b : QQ) : QQ := ⟨a.n * b.d - b.n * a.d, a.d * b.d⟩

/-- Product of fractions. -/
def qMul (a b : QQ) : QQ := ⟨a.n * b.n, a.d * b.d⟩

/-- Negation of a fraction. -/
def qNeg (a : QQ) : QQ := ⟨-a.n, a.d⟩

/-- Absolute value of a fraction. -/
def qAbs (a : QQ) : QQ := ⟨if a.n < 0 then -a.n else a.n, a.d⟩

/-- Quotient of fractions; callers guard against b = 0.  The denominator is
kept positive by moving b's sign to the numerator. -/
def qDiv (a b : QQ) : QQ :=
  if 0 ≤ b.n then ⟨a.n * b.d, a.d * b.n⟩ else ⟨-(a.n * b.d), a.d * (-b.n)⟩

/-- Integer power computed through `Nat.pow` (which both the elaborator and
the kernel evaluate with bignum arithmetic; the generic `Int ^ Nat` unfolds
one multiplication per exponent step and overflows the interpreter on the
large exponents that float-overflow tests need). -/
def ipow (x : Int) (n : Nat) : Int :=
  if 0 ≤ x then ((x.toNat ^ n : Nat) : Int)
  else if n % 2 = 0 then ((x.natAbs ^ n : Nat) : Int)
  else -((x.natAbs ^ n : Nat) : Int)

/-- a raised to an integer power; callers guard a = 0 with negative e. -/
def qZpow (a : QQ) (e : Int) : QQ :=
  if 0 ≤ e then ⟨ipow a.n e.toNat, ipow a.d e.toNat⟩
  else
    let nn := ipow a.n (-e).toNat
    let dd := ipow a.d (-e).toNat
    if 0 ≤ nn then ⟨dd, nn⟩ else ⟨-dd, -nn⟩

/-- m * 10^e as a fraction (used for numeric literals). -/
def qSci (m : Nat) (e : Int) : QQ :=
  if 0 ≤ e then ⟨((m * 10 ^ e.toNat : Nat) : Int), 1⟩
  else ⟨(m : Int), ((10 ^ (-e).toNat : Nat) : Int)⟩

/-- Whether the fraction is an integer (denominator divides numerator). -/
def qIsIntB (q : QQ) : Bool := decide (q.n % q.d = 0)

/-- The integer value of an integral fraction. -/
def qToInt (q : QQ) : Int := q.n / q.d

/-- Smallest magnitude at which IEEE-754 double rounding (to nearest, ties to
even) produces an infinity: 2^1024 - 2^970. -/
def fBound : QQ := ⟨((2 ^ 1024 - 2 ^ 970 : Nat) : Int), 1⟩

/-- Model of a CPython float: an exact finite fraction, an infinity, a NaN,
or the symbolic value `sym b e` standing for the double nearest to the real
b^e (with b a positive finite fraction and e non-integral), which is
irrational in general and therefore not representable as a fraction. -/
inductive PyFloat where
  | fin (q : QQ)
  | inf
  | ninf
  | nan
  | sym (b e : QQ)
deriving DecidableEq

/-- Build a float from the exact fraction an operation produced, applying the
IEEE-754 overflow rule. -/
def mkFloat (q : QQ) : PyFloat :=
  if qLeB fBound q then .inf
  else if qLeB q (qNeg fBound) then .ninf
  else .fin q

/-- The five builtin functions whitelisted by `calculate`'s `allowed_names`
(line 98 of the source). -/
inductive BFun where
  | babs
  | bmax
  | bmin
  | bpow
  | bround
deriving DecidableEq

/-- Model of the Python values an expression in the modelled fragment can
produce: ints (arbitrary precision), bools, floats, strings, the builtin
functions from the whitelist, `None`, the empty `__builtins__` dict injected
by `eval`, a complex number produced by `**` on a negative base with
non-integral exponent (kept opaque: no claim depends on its components), and
the object produced by a successful attribute lookup (kept opaque: the
claims only evaluate attribute access on objects that fail to evaluate). -/
inductive PyVal where
  | int (n : Int)
  | bool (b : Bool)
  | float (f : PyFloat)
  | str (s : String)
  | tfunc (f : BFun)
  | pynone
  | edict
  | complexVal
  | attrv (fld : String)
deriving DecidableEq

/-- Error used where an operation would have to evaluate a symbolic
irrational power; such operations are defined in CPython but outside the
modelled fragment, and no claim exercises them. -/
def symErr {α : Type} : Except String α :=
  .error ("arithmetic on an irrational power value is outside the modelled fragment")

/-- Float addition (IEEE special-value rules; exact on finite values up to
the overflow boundary). -/
def fAdd : PyFloat → PyFloat → Except String PyFloat
  | .sym _ _, _ => symErr
  | _, .sym _ _ => symErr
  | .nan, _ => .ok .nan
  | _, .nan => .ok .nan
  | .inf, .ninf => .ok .nan
  | .ninf, .inf => .ok .nan
  | .inf, _ => .ok .inf
  | _, .inf => .ok .inf
  | .ninf, _ => .ok .ninf
  | _, .ninf => .ok .ninf
  | .fin x, .fin y => .ok (mkFloat (qAdd x y))

/-- Float subtraction. -/
def fSub : PyFloat → PyFloat → Except String PyFloat
  | .sym _ _, _ => symErr
  | _, .sym _ _ => symErr
  | .nan, _ => .ok .nan
  | _, .nan => .ok .nan
  | .inf, .inf => .ok .nan
  | .ninf, .ninf => .ok .nan
  | .inf, _ => .ok .inf
  | _, .inf => .ok .ninf
  | .ninf, _ => .ok .ninf
  | _, .ninf => .ok .inf
  | .fin x, .fin y => .ok (mkFloat (qSub x y))

/-- Float multiplication. -/
def fMul : PyFloat → PyFloat → Except String PyFloat
  | .sym _ _, _ => symErr
  | _, .sym _ _ => symErr
  | .nan, _ => .ok .nan
  | _, .nan => .ok .nan
  | .inf, .inf => .ok .inf
  | .inf, .ninf => .ok .ninf
  | .ninf, .inf => .ok .ninf
  | .ninf, .ninf => .ok .inf
  | .inf, .fin y =>
    if qEqB y (qInt 0) then .ok .nan else if qLtB (qInt 0) y then .ok .inf else .ok .ninf
  | .fin x, .inf =>
    if qEqB x (qInt 0) then .ok .nan else if qLtB (qInt 0) x then .ok .inf else .ok .ninf
  | .ninf, .fin y =>
    if qEqB y (qInt 0) then .ok .nan else if qLtB (qInt 0) y then .ok .ninf else .ok .inf
  | .fin x, .ninf =>
    if qEqB x (qInt 0) then .ok .nan else if qLtB (qInt 0) x then .ok .ninf else .ok .inf
  | .fin x, .fin y => .ok (mkFloat (qMul x y))

/-- Float true division.  CPython raises ZeroDivisionError whenever the
divisor is (positive or negative) zero, before any special-value rule. -/
def fDiv : PyFloat → PyFloat → Except String PyFloat
  | .sym _ _, _ => symErr
  | _, .sym _ _ => symErr
  | x, .fin y =>
    if qEqB y (qInt 0) then .error ("float division by zero")
    else
      match x with
      | .nan => .ok .nan
      | .inf => if qLtB (qInt 0) y then .ok .inf else .ok .ninf
      | .ninf => if qLtB (qInt 0) y then .ok .ninf else .ok .inf
      | .fin a => .ok (mkFloat (qDiv a y))
      | .sym _ _ => symErr
  | .nan, _ => .ok .nan
  | _, .nan => .ok .nan
  | .inf, .inf => .ok .nan
  | .inf, .ninf => .ok .nan
  | .ninf, .inf => .ok .nan
  | .ninf, .ninf => .ok .nan
  | .fin _, .inf => .ok (.fin (qInt 0))
  | .fin _, .ninf => .ok (.fin (qInt 0))

/-- Is this float the (exact) zero exponent?  Helper for `fPow`. -/
def fIsZero : PyFloat → Bool
  | .fin q => qEqB q (qInt 0)
  | _ => false

/-- Is this float the (exact) one?  Helper for `fPow`. -/
def fIsOne : PyFloat → Bool
  | .fin q => qEqB q (qInt 1)
  | _ => false

/-- Does this float carry a symbolic irrational value? -/
def fHasSym : PyFloat → Bool
  | .sym _ _ => true
  | _ => false

/-- Float exponentiation, following CPython's `float_pow`:
pow(x, ±0) = 1 and pow(1, y) = 1 for every x, y including NaN; a NaN operand
otherwise gives NaN; infinite operands follow the C99 pow rules; a zero base
with a negative exponent raises ZeroDivisionError; a finite result beyond
the double range raises OverflowError("(34, 'Numerical result out of
range')") — unlike float addition or multiplication, which overflow
silently to an infinity (both verified against CPython 3.11, e.g.
`2.0 ** 10000.0` and `0.5 ** -10000` raise while `1e308 * 10` is `inf`); a
negative base with a non-integral exponent returns a complex number
(modelled opaquely); a positive base with a non-integral exponent has an
irrational value, kept symbolic.  Returns a `PyVal` because of the complex
case. -/
def fPow (a b : PyFloat) : Except String PyVal :=
  if fIsZero b then .ok (.float (.fin (qInt 1)))
  else if fIsOne a then .ok (.float (.fin (qInt 1)))
  else if fHasSym a || fHasSym b then symErr
  else
    match a, b with
    | .sym _ _, _ => symErr
    | _, .sym _ _ => symErr
    | .nan, _ => .ok (.float .nan)
    | _, .nan => .ok (.float .nan)
    | _, .inf =>
      match a with
      | .fin q =>
        if qLtB (qInt 1) (qAbs q) then .ok (.float .inf)
        else if qEqB (qAbs q) (qInt 1) then .ok (.float (.fin (qInt 1)))
        else .ok (.float (.fin (qInt 0)))
      | _ => .ok (.float .inf)
    | _, .ninf =>
      match a with
      | .fin q =>
        if qEqB q (qInt 0) then .error ("0.0 cannot be raised to a negative power")
        else if qLtB (qInt 1) (qAbs q) then .ok (.float (.fin (qInt 0)))
        else if qEqB (qAbs q) (qInt 1) then .ok (.float (.fin (qInt 1)))
        else .ok (.float .inf)
      | _ => .ok (.float (.fin (qInt 0)))
    | .inf, .fin e =>
      if qLtB (qInt 0) e then .ok (.float .inf) else .ok (.float (.fin (qInt 0)))
    | .ninf, .fin e =>
      if qIsIntB e then
        if qToInt e % 2 = 0 then
          if qLtB (qInt 0) e then .ok (.float .inf) else .ok (.float (.fin (qInt 0)))
        else
          if qLtB (qInt 0) e then .ok (.float .ninf) else .ok (.float (.fin (qInt 0)))
      else .ok .complexVal
    | .fin x, .fin e =>
      if qIsIntB e then
        if qEqB x (qInt 0) && qLtB e (qInt 0) then
          .error ("0.0 cannot be raised to a negative power")
        else
          match mkFloat (qZpow x (qToInt e)) with
          | .inf => .error ("(34, Numerical result out of range)")
          | .ninf => .error ("(34, Numerical result out of range)")
          | f => .ok (.float f)
      else
        if qLtB x (qInt 0) then .ok .complexVal
        else if qEqB x (qInt 0) then
          if qLtB e (qInt 0) then .error ("0.0 cannot be raised to a negative power")
          else .ok (.float (.fin (qInt 0)))
        else .ok (.float (.sym x e))

/-- Tokens of the modelled fragment of Python's expression grammar. -/
inductive Tok where
  | intL (n : Nat)
  | floatL (f : PyFloat)
  | strL (s : String)
  | ident (s : String)
  | plus
  | minus
  | star
  | dstar
  | slash
  | lpar
  | rpar
  | comma
  | dot
  | ltT
  | leT
  | gtT
  | geT
  | eqT
  | neT
deriving DecidableEq

/-- First character of a Python identifier (ASCII fragment). -/
def identStart (c : Char) : Bool := c.isAlpha || c = '_'

/-- Subsequent character of a Python identifier (ASCII fragment). -/
def identChar (c : Char) : Bool := c.isAlphanum || c = '_'

/-- Whitespace accepted between tokens. -/
def isSpaceC (c : Char) : Bool := c = ' ' || c = '\t' || c = '\n' || c = '\r'

/-- Numeric value of a digit string. -/
def digitsToNat (ds : List Char) : Nat := ds.foldl (fun n c => n * 10 + (c.toNat - 48)) 0

/-- Build the token for a numeric literal from its integer digits, optional
fractional digits, and optional exponent.  A literal with a dot or an
exponent is a float (CPython converts it to the nearest double at compile
time: a literal such as 2e308 becomes infinity); otherwise it is an int. -/
def mkNumTok (ip : List Char) (dotPart : Option (List Char)) (ex : Option Int) : Tok :=
  match dotPart, ex with
  | none, none => .intL (digitsToNat ip)
  | _, _ =>
    let fp := dotPart.getD []
    let mant := digitsToNat (ip ++ fp)
    let dexp : Int := ex.getD 0 - (fp.length : Int)
    .floatL (mkFloat (qSci mant dexp))

/-- Lex the exponent digits after `e`/`E` and an optional sign; CPython
requires at least one digit there. -/
def lexExpoDigits (ip : List Char) (dotPart : Option (List Char)) (sgn : Int)
    (r : List Char) : Except String (Tok × List Char) :=
  let ds := r.takeWhile Char.isDigit
  if ds.isEmpty then .error ("invalid decimal literal")
  else .ok (mkNumTok ip dotPart (some (sgn * (digitsToNat ds : Int))), r.dropWhile Char.isDigit)

/-- Lex an optional exponent part of a numeric literal. -/
def lexExpo (ip : List Char) (dotPart : Option (List Char)) :
    List Char → Except String (Tok × List Char)
  | 'e' :: '+' :: r => lexExpoDigits ip dotPart 1 r
  | 'e' :: '-' :: r => lexExpoDigits ip dotPart (-1) r
  | 'e' :: r => lexExpoDigits ip dotPart 1 r
  | 'E' :: '+' :: r => lexExpoDigits ip dotPart 1 r
  | 'E' :: '-' :: r => lexExpoDigits ip dotPart (-1) r
  | 'E' :: r => lexExpoDigits ip dotPart 1 r
  | r => .ok (mkNumTok ip dotPart none, r)

/-- Lex a numeric literal (the head of `l` is a digit, or a dot followed by a
digit). -/
def lexNumber (l : List Char) : Except String (Tok × List Char) :=
  let ip := l.takeWhile Char.isDigit
  match l.dropWhile Char.isDigit with
  | '.' :: r2 => lexExpo ip (some (r2.takeWhile Char.isDigit)) (r2.dropWhile Char.isDigit)
  | r1 => lexExpo ip none r1

/-- Tokenizer for the modelled expression fragment.  `fuel` only needs to
exceed the number of tokens; callers pass the character count plus one.
A character without a token (such as a lone `=`, `[`, or `!`) is a syntax
error, as it is for CPython's parser on these inputs. -/
def tokenize : Nat → List Char → Except String (List Tok)
  | 0, _ => .error ("tokenizer fuel exhausted")
  | _ + 1, [] => .ok []
  | fuel + 1, c :: cs =>
    if identStart c then
      (tokenize fuel (cs.dropWhile identChar)).map
        (fun ts => .ident (String.mk (c :: cs.takeWhile identChar)) :: ts)
    else if c.isDigit then
      match lexNumber (c :: cs) with
      | .ok (t, r) => (tokenize fuel r).map (fun ts => t :: ts)
      | .error m => .error m
    else if isSpaceC c then tokenize fuel cs
    else if c = '.' then
      match cs with
      | d :: _ =>
        if d.isDigit then
          match lexNumber (c :: cs) with
          | .ok (t, r) => (tokenize fuel r).map (fun ts => t :: ts)
          | .error m => .error m
        else (tokenize fuel cs).map (fun ts => .dot :: ts)
      | [] => (tokenize fuel cs).map (fun ts => .dot :: ts)
    else if c = '\'' || c = '"' then
      match cs.dropWhile (fun d => d != c) with
      | _ :: rest =>
        (tokenize fuel rest).map
          (fun ts => .strL (String.mk (cs.takeWhile (fun d => d != c))) :: ts)
      | [] => .error ("unterminated string literal")
    else if c = '*' then
      match cs with
      | '*' :: r => (tokenize fuel r).map (fun ts => .dstar :: ts)
      | _ => (tokenize fuel cs).map (fun ts => .star :: ts)
    else if c = '+' then (tokenize fuel cs).map (fun ts => .plus :: ts)
    else if c = '-' then (tokenize fuel cs).map (fun ts => .minus :: ts)
    else if c = '/' then (tokenize fuel cs).map (fun ts => .slash :: ts)
    else if c = '(' then (tokenize fuel cs).map (fun ts => .lpar :: ts)
    else if c = ')' then (tokenize fuel cs).map (fun ts => .rpar :: ts)
    else if c = ',' then (tokenize fuel cs).map (fun ts => .comma :: ts)
    else if c = '<' then
      match cs with
      | '=' :: r => (tokenize fuel r).map (fun ts => .leT :: ts)
      | _ => (tokenize fuel cs).map (fun ts => .ltT :: ts)
    else if c = '>' then
      match cs with
      | '=' :: r => (tokenize fuel r).map (fun ts => .geT :: ts)
      | _ => (tokenize fuel cs).map (fun ts => .gtT :: ts)
    else if c = '=' then
      match cs with
      | '=' :: r => (tokenize fuel r).map (fun ts => .eqT :: ts)
      | _ => .error ("invalid syntax: assignment target")
    else if c = '!' then
      match cs with
      | '=' :: r => (tokenize fuel r).map (fun ts => .neT :: ts)
      | _ => .error ("invalid character !")
    else .error ("invalid character " ++ String.mk [c])

/-- Binary arithmetic operators of the fragment. -/
inductive BOp where
  | addB
  | subB
  | mulB
  | divB
  | powB
deriving DecidableEq

/-- Comparison operators of the fragment. -/
inductive COp where
  | ltC
  | leC
  | gtC
  | geC
  | eqC
  | neC
deriving DecidableEq

/-- Abstract syntax of the modelled fragment of Python expressions. -/
inductive Expr where
  | intLit (n : Nat)
  | floatLit (f : PyFloat)
  | strLit (s : String)
  | boolLit (b : Bool)
  | noneLit
  | name (s : String)
  | neg (a : Expr)
  | pos (a : Expr)
  | bin (op : BOp) (a b : Expr)
  | cmp (op : COp) (a b : Expr)
  | call (f : Expr) (args : List Expr)
  | attr (a : Expr) (fld : String)

/-- The type of a sub-parser: tokens in, expression and leftover tokens out. -/
def P : Type := List Tok → Except String (Expr × List Tok)

/-- The comparison operator denoted by a token, if any. -/
def cmpOfTok : Tok → Option COp
  | .ltT => some .ltC
  | .leT => some .leC
  | .gtT => some .gtC
  | .geT => some .geC
  | .eqT => some .eqC
  | .neT => some .neC
  | _ => none

/-- Parse a primary expression: literal, name, or a parenthesised
expression via `child`.  The keywords `True`, `False`, `None` and the
compile-time constant `__debug__` are resolved to constants at parse time,
as CPython's compiler does — `__debug__` never reaches a name lookup, so
`eval("__debug__", {"__builtins__": {}}, allowed_names)` is `True` (verified
against CPython 3.11). -/
def parseAtom (child : P) : P := fun ts =>
  match ts with
  | .intL n :: r => .ok (.intLit n, r)
  | .floatL f :: r => .ok (.floatLit f, r)
  | .strL s :: r => .ok (.strLit s, r)
  | .ident s :: r =>
    if s = "True" then .ok (.boolLit true, r)
    else if s = "False" then .ok (.boolLit false, r)
    else if s = "None" then .ok (.noneLit, r)
    else if s = "__debug__" then .ok (.boolLit true, r)
    else .ok (.name s, r)
  | .lpar :: r =>
    match child r with
    | .ok (e, .rpar :: r2) => .ok (e, r2)
    | .ok (_, _) => .error ("expected closing parenthesis")
    | .error m => .error m
  | _ => .error ("invalid syntax")

/-- Parse the comma-separated arguments of a call, up to the closing
parenthesis (the empty-argument case is handled by the caller). -/
def parseCallArgs (child : P) : Nat → List Expr → List Tok →
    Except String (List Expr × List Tok)
  | 0, _, _ => .error ("parser fuel exhausted")
  | fuel + 1, acc, ts =>
    match child ts with
    | .ok (e, .comma :: r2) => parseCallArgs child fuel (acc ++ [e]) r2
    | .ok (e, .rpar :: r2) => .ok (acc ++ [e], r2)
    | .ok (_, _) => .error ("expected comma or closing parenthesis in call")
    | .error m => .error m

/-- Parse the postfix chain after a primary: calls and attribute accesses. -/
def parsePostRest (child : P) : Nat → Expr → List Tok → Except String (Expr × List Tok)
  | 0, _, _ => .error ("parser fuel exhausted")
  | fuel + 1, a, ts =>
    match ts with
    | .lpar :: .rpar :: r => parsePostRest child fuel (.call a []) r
    | .lpar :: r =>
      match parseCallArgs child (r.length + 1) [] r with
      | .ok (args, r2) => parsePostRest child fuel (.call a args) r2
      | .error m => .error m
    | .dot :: .ident f :: r => parsePostRest child fuel (.attr a f) r
    | .dot :: _ => .error ("expected attribute name after dot")
    | _ => .ok (a, ts)

/-- Parse a primary with its postfix chain. -/
def parsePrim (child : P) : P := fun ts =>
  match parseAtom child ts with
  | .ok (a, r) => parsePostRest child (r.length + 1) a r
  | .error m => .error m

/-- Parse a unary expression and the right-associative `**` layer.  As in
CPython's grammar, `**` binds tighter than a unary minus on its left but its
right operand may itself be unary, so `-2 ** 2` is `-(2 ** 2)` and
`2 ** -1` is `2 ** (-1)`. -/
def parseUnary (child : P) : Nat → P
  | 0 => fun _ => .error ("parser fuel exhausted")
  | fuel + 1 => fun ts =>
    match ts with
    | .minus :: r =>
      match parseUnary child fuel r with
      | .ok (e, r2) => .ok (.neg e, r2)
      | .error m => .error m
    | .plus :: r =>
      match parseUnary child fuel r with
      | .ok (e, r2) => .ok (.pos e, r2)
      | .error m => .error m
    | _ =>
      match parsePrim child ts with
      | .ok (a, .dstar :: r2) =>
        match parseUnary child fuel r2 with
        | .ok (b, r3) => .ok (.bin .powB a b, r3)
        | .error m => .error m
      | .ok (a, r) => .ok (a, r)
      | .error m => .error m

/-- Left-associative chain of `*` and `/`. -/
def parseMulRest (unry : P) : Nat → Expr → List Tok → Except String (Expr × List Tok)
  | 0, _, _ => .error ("parser fuel exhausted")
  | fuel + 1, a, ts =>
    match ts with
    | .star :: r =>
      match unry r with
      | .ok (b, r2) => parseMulRest unry fuel (.bin .mulB a b) r2
      | .error m => .error m
    | .slash :: r =>
      match unry r with
      | .ok (b, r2) => parseMulRest unry fuel (.bin .divB a b) r2
      | .error m => .error m
    | _ => .ok (a, ts)

/-- Left-associative chain of `+` and `-`. -/
def parseAddRest (mul : P) : Nat → Expr → List Tok → Except String (Expr × List Tok)
  | 0, _, _ => .error ("parser fuel exhausted")
  | fuel + 1, a, ts =>
    match ts with
    | .plus :: r =>
      match mul r with
      | .ok (b, r2) => parseAddRest mul fuel (.bin .addB a b) r2
      | .error m => .error m
    | .minus :: r =>
      match mul r with
      | .ok (b, r2) => parseAddRest mul fuel (.bin .subB a b) r2
      | .error m => .error m
    | _ => .ok (a, ts)

/-- Full expression parser with standard Python operator precedence:
comparison below addition/subtraction below multiplication/division below
unary minus below `**` (which is right-associative), with calls, attribute
access and parentheses at the top.  The recursion (for parenthesised
subexpressions and call arguments) is fuelled; one unit per nesting level
suffices, and callers pass the token count plus one. -/
def parseExpr : Nat → P
  | 0 => fun _ => .error ("parser fuel exhausted")
  | fuel + 1 => fun ts =>
    let unry : P := fun ts2 => parseUnary (parseExpr fuel) (ts2.length + 1) ts2
    let mul : P := fun ts2 =>
      match unry ts2 with
      | .ok (a, r) => parseMulRest unry (r.length + 1) a r
      | .error m => .error m
    let addP : P := fun ts2 =>
      match mul ts2 with
      | .ok (a, r) => parseAddRest mul (r.length + 1) a r
      | .error m => .error m
    match addP ts with
    | .ok (a, t :: r2) =>
      match cmpOfTok t with
      | some op =>
        match addP r2 with
        | .ok (b, r3) => .ok (.cmp op a b, r3)
        | .error m => .error m
      | none => .ok (a, t :: r2)
    | .ok (a, []) => .ok (a, [])
    | .error m => .error m

/-- Parse a complete expression: all tokens must be consumed, as `eval`
requires. -/
def parseTop (ts : List Tok) : Except String Expr :=
  match parseExpr (ts.length + 1) ts with
  | .ok (e, []) => .ok e
  | .ok (_, _) => .error ("invalid syntax at end of input")
  | .error m => .error m

/-- The integer a value contributes to integer arithmetic (Python bools are
ints there: True is 1, False is 0). -/
def toIntVal : PyVal → Option Int
  | .int n => some n
  | .bool b => some (cond b 1 0)
  | _ => none

/-- The float a value is promoted to in mixed float arithmetic. -/
def toFloatValF : PyVal → Option PyFloat
  | .float f => some f
  | .int n => some (.fin ⟨n, 1⟩)
  | .bool b => some (.fin ⟨cond b 1 0, 1⟩)
  | _ => none

/-- Unary minus. -/
def pyNeg : PyVal → Except String PyVal
  | .int n => .ok (.int (-n))
  | .bool b => .ok (.int (-(cond b 1 0)))
  | .float (.fin q) => .ok (.float (.fin (qNeg q)))
  | .float .inf => .ok (.float .ninf)
  | .float .ninf => .ok (.float .inf)
  | .float .nan => .ok (.float .nan)
  | .float (.sym _ _) => symErr
  | _ => .error ("bad operand type for unary minus")

/-- Unary plus (identity on numbers; bools become ints). -/
def pyPos : PyVal → Except String PyVal
  | .int n => .ok (.int n)
  | .bool b => .ok (.int (cond b 1 0))
  | .float f => .ok (.float f)
  | _ => .error ("bad operand type for unary plus")

/-- Integer arithmetic.  `/` is true division and yields a float — raising
OverflowError("integer division result too large for a float") when the
quotient is out of the double range, as CPython's `int.__truediv__` does
(verified: `10**400 / 1` raises); `**` with a non-negative exponent stays an
(arbitrary-precision) int and with a negative exponent yields a float whose
magnitude is at most 1 (exact in this model where CPython rounds to a
double). -/
def intOp : BOp → Int → Int → Except String PyVal
  | .addB, x, y => .ok (.int (x + y))
  | .subB, x, y => .ok (.int (x - y))
  | .mulB, x, y => .ok (.int (x * y))
  | .divB, x, y =>
    if y = 0 then .error ("division by zero")
    else
      match mkFloat (qDiv ⟨x, 1⟩ ⟨y, 1⟩) with
      | .inf => .error ("integer division result too large for a float")
      | .ninf => .error ("integer division result too large for a float")
      | f => .ok (.float f)
  | .powB, x, y =>
    if 0 ≤ y then .ok (.int (ipow x y.toNat))
    else if x = 0 then .error ("0.0 cannot be raised to a negative power")
    else .ok (.float (mkFloat (qZpow ⟨x, 1⟩ y)))

/-- Float arithmetic dispatch. -/
def floatOpF : BOp → PyFloat → PyFloat → Except String PyVal
  | .addB, f, g => (fAdd f g).map .float
  | .subB, f, g => (fSub f g).map .float
  | .mulB, f, g => (fMul f g).map .float
  | .divB, f, g => (fDiv f g).map .float
  | .powB, f, g => fPow f g

/-- String repetition (`s * k`; a non-positive count gives the empty
string, as in Python). -/
def strRep (s : String) (k : Int) : String :=
  String.mk (List.flatten (List.replicate k.toNat s.data))

/-- Binary arithmetic on Python values: int op int stays integral, anything
involving a float is done in floats, strings support `+` (concatenation)
and `*` (repetition by an int), and every other combination is a
TypeError. -/
def pyBin (op : BOp) (a b : PyVal) : Except String PyVal :=
  match toIntVal a, toIntVal b with
  | some x, some y => intOp op x y
  | _, _ =>
    match toFloatValF a, toFloatValF b with
    | some f, some g => floatOpF op f g
    | _, _ =>
      match op, a, b with
      | .addB, .str s, .str t => .ok (.str (s ++ t))
      | .mulB, .str s, v =>
        match toIntVal v with
        | some k => .ok (.str (strRep s k))
        | none => .error ("unsupported operand type(s)")
      | .mulB, v, .str s =>
        match toIntVal v with
        | some k => .ok (.str (strRep s k))
        | none => .error ("unsupported operand type(s)")
      | _, _, _ => .error ("unsupported operand type(s)")

/-- Strict order on floats without NaN/symbolic operands. -/
def fLtB : PyFloat → PyFloat → Bool
  | .ninf, .ninf => false
  | .ninf, _ => true
  | _, .ninf => false
  | .inf, _ => false
  | _, .inf => true
  | .fin x, .fin y => qLtB x y
  | _, _ => false

/-- Equality on floats without NaN/symbolic operands. -/
def fEqB : PyFloat → PyFloat → Bool
  | .fin x, .fin y => qEqB x y
  | .inf, .inf => true
  | .ninf, .ninf => true
  | _, _ => false

/-- Float comparison with the IEEE NaN rules (every comparison with NaN is
false except `!=`, which is true). -/
def fCmpRaw (op : COp) (f g : PyFloat) : Except String Bool :=
  if fHasSym f || fHasSym g then symErr
  else if f = .nan || g = .nan then
    match op with
    | .neC => .ok true
    | _ => .ok false
  else
    match op with
    | .ltC => .ok (fLtB f g)
    | .leC => .ok (fLtB f g || fEqB f g)
    | .gtC => .ok (fLtB g f)
    | .geC => .ok (fLtB g f || fEqB f g)
    | .eqC => .ok (fEqB f g)
    | .neC => .ok (!fEqB f g)

/-- String comparison (code-point lexicographic, as in Python for ASCII). -/
def strCmpB (op : COp) (s t : String) : Bool :=
  match op with
  | .ltC => decide (s < t)
  | .leC => decide (s < t) || decide (s = t)
  | .gtC => decide (t < s)
  | .geC => decide (t < s) || decide (s = t)
  | .eqC => decide (s = t)
  | .neC => !(decide (s = t))

/-- Comparison of Python values: numbers compare numerically, strings
lexicographically; `==`/`!=` between unrelated types is False/True; an
ordering between unrelated types is a TypeError.  Equality on the opaque
values (functions, None, the `__builtins__` dict) is structural, which
matches CPython's identity semantics for the values this fragment can
actually produce. -/
def pyCmpRaw (op : COp) (a b : PyVal) : Except String Bool :=
  match toFloatValF a, toFloatValF b with
  | some f, some g => fCmpRaw op f g
  | _, _ =>
    match a, b with
    | .str s, .str t => .ok (strCmpB op s t)
    | _, _ =>
      match op with
      | .eqC => .ok (decide (a = b))
      | .neC => .ok (!(decide (a = b)))
      | _ => .error ("ordering comparison not supported between these types")

/-- Comparison returning a Python bool value. -/
def pyCmpB (op : COp) (a b : PyVal) : Except String PyVal :=
  (pyCmpRaw op a b).map .bool

/-- The builtin `abs`. -/
def pyAbs : PyVal → Except String PyVal
  | .int n => .ok (.int (if n < 0 then -n else n))
  | .bool b => .ok (.int (cond b 1 0))
  | .float (.fin q) => .ok (.float (.fin (qAbs q)))
  | .float .inf => .ok (.float .inf)
  | .float .ninf => .ok (.float .inf)
  | .float .nan => .ok (.float .nan)
  | .float (.sym b e) => .ok (.float (.sym b e))
  | _ => .error ("bad operand type for abs()")

/-- The builtins `max` and `min` in their multi-argument form: keep the
first argument, then replace it whenever a later argument compares
strictly greater (for `max`) or smaller (for `min`), exactly CPython's
loop.  `fname` is the function's name, used in the zero-argument TypeError
("max expected at least 1 argument, got 0").  The iterable single-argument
form only applies to iterables, which the fragment cannot produce except
for strings; it is mapped to an error (CPython raises
TypeError("'int' object is not iterable") and similar there for every value
this model can supply to it except a string; the model leaves off the
argument's type name). -/
def pyMaxMin (fname : String) (gtSel : Bool) (args : List PyVal) :
    Except String PyVal :=
  match args with
  | [] => .error (fname ++ " expected at least 1 argument, got 0")
  | [_] => .error ("object is not iterable")
  | v :: rest =>
    rest.foldlM
      (fun acc x => do
        let c ← pyCmpRaw (if gtSel then .gtC else .ltC) x acc
        pure (if c then x else acc))
      v

/-- Round a fraction to the nearest integer, ties to even (Python 3
rounding). -/
def rhe (q : QQ) : Int :=
  let fl := Int.fdiv q.n q.d
  let rem := q.n - fl * q.d
  if 2 * rem < q.d then fl
  else if q.d < 2 * rem then fl + 1
  else if fl % 2 = 0 then fl else fl + 1

/-- 10^k as a fraction, for a possibly negative k. -/
def qTenPow (k : Int) : QQ :=
  if 0 ≤ k then ⟨((10 ^ k.toNat : Nat) : Int), 1⟩ else ⟨1, ((10 ^ (-k).toNat : Nat) : Int)⟩

/-- Round a fraction to k decimal digits, ties to even. -/
def roundQ (q : QQ) (k : Int) : QQ :=
  qMul ⟨rhe (qMul q (qTenPow k)), 1⟩ (qTenPow (-k))

/-- The builtin `round` with one argument: ints are unchanged, finite floats
round half-to-even to an int, infinities and NaN raise. -/
def pyRound1 : PyVal → Except String PyVal
  | .int n => .ok (.int n)
  | .bool b => .ok (.int (cond b 1 0))
  | .float (.fin q) => .ok (.int (rhe q))
  | .float .inf => .error ("cannot convert float infinity to integer")
  | .float .ninf => .error ("cannot convert float infinity to integer")
  | .float .nan => .error ("cannot convert float NaN to integer")
  | .float (.sym _ _) => symErr
  | _ => .error ("type cannot be rounded")

/-- The builtin `round` with two arguments (ndigits may be negative, and
`None` falls back to the one-argument form, as in Python). -/
def pyRound2 (v w : PyVal) : Except String PyVal :=
  match w with
  | .pynone => pyRound1 v
  | _ =>
    match toIntVal w with
    | none => .error ("ndigits must be an integer")
    | some k =>
      match v with
      | .int n => .ok (.int (qToInt (roundQ ⟨n, 1⟩ k)))
      | .bool b => .ok (.int (qToInt (roundQ ⟨cond b 1 0, 1⟩ k)))
      | .float (.fin q) => .ok (.float (.fin (roundQ q k)))
      | .float .inf => .ok (.float .inf)
      | .float .ninf => .ok (.float .ninf)
      | .float .nan => .ok (.float .nan)
      | .float (.sym _ _) => symErr
      | _ => .error ("type cannot be rounded")

/-- Three-argument `pow`: integers only, non-zero modulus; the result sign
follows the modulus (Python's `%`).  Negative exponents (modular inverses,
Python >= 3.8) are outside the modelled fragment. -/
def pyPow3 (a b m : PyVal) : Except String PyVal :=
  match toIntVal a, toIntVal b, toIntVal m with
  | some x, some e, some md =>
    if md = 0 then .error ("pow() 3rd argument cannot be 0")
    else if e < 0 then .error ("modular inverse is outside the modelled fragment")
    else .ok (.int (Int.fmod (ipow x e.toNat) md))
  | _, _, _ => .error ("pow() 3rd argument not allowed unless all arguments are integers")

/-- Apply a whitelisted builtin to its evaluated arguments, with CPython's
arity rules and TypeError messages (each verified against CPython 3.11,
quote characters dropped per the file's convention): abs takes exactly 1
("abs() takes exactly one argument (2 given)"), max/min at least 1 (and
more than 1 in the modelled non-iterable form), pow 2 or 3 ("pow() missing
required argument 'exp' (pos 2)", "pow() takes at most 3 arguments (4
given)"), round 1 or 2 ("round() missing required argument 'number' (pos
1)", "round() takes at most 2 arguments (3 given)"). -/
def applyB : BFun → List PyVal → Except String PyVal
  | .babs, [v] => pyAbs v
  | .babs, args =>
    .error ("abs() takes exactly one argument (" ++ Nat.repr args.length ++ " given)")
  | .bmax, args => pyMaxMin ("max") true args
  | .bmin, args => pyMaxMin ("min") false args
  | .bpow, [] => .error ("pow() missing required argument base (pos 1)")
  | .bpow, [_] => .error ("pow() missing required argument exp (pos 2)")
  | .bpow, [a, b] => pyBin .powB a b
  | .bpow, [a, b, m] => pyPow3 a b m
  | .bpow, args =>
    .error ("pow() takes at most 3 arguments (" ++ Nat.repr args.length ++ " given)")
  | .bround, [] => .error ("round() missing required argument number (pos 1)")
  | .bround, [v] => pyRound1 v
  | .bround, [v, w] => pyRound2 v w
  | .bround, args =>
    .error ("round() takes at most 2 arguments (" ++ Nat.repr args.length ++ " given)")

/-- Name resolution inside `calculate`'s `eval`: the locals are
`allowed_names = {"abs": abs, "max": max, "min": min, "pow": pow,
"round": round}` (source line 98), the globals are `{"__builtins__": {}}`
(source line 102, so the name `__builtins__` resolves to an empty dict),
and any other name raises NameError. -/
def lookupName (s : String) : Except String PyVal :=
  if s = "abs" then .ok (.tfunc .babs)
  else if s = "max" then .ok (.tfunc .bmax)
  else if s = "min" then .ok (.tfunc .bmin)
  else if s = "pow" then .ok (.tfunc .bpow)
  else if s = "round" then .ok (.tfunc .bround)
  else if s = "__builtins__" then .ok .edict
  else .error ("name " ++ s ++ " is not defined")

/-- Calling a value: only the whitelisted builtins are callable in the
modelled fragment. -/
def pyCall (vf : PyVal) (args : List PyVal) : Except String PyVal :=
  match vf with
  | .tfunc f => applyB f args
  | _ => .error ("object is not callable")

/-- Evaluate an expression, with Python's left-to-right evaluation order
(and, for a call, function before arguments).  Attribute access evaluates
its object and then produces an opaque attribute value; the claims only
exercise attribute access on objects whose evaluation already fails.
`fuel` bounds the nesting depth; callers pass the character count plus
one, which always suffices since every nesting level consumes input. -/
def evalE : Nat → Expr → Except String PyVal
  | 0, _ => .error ("recursion limit exceeded")
  | fuel + 1, e =>
    match e with
    | .intLit n => .ok (.int (Int.ofNat n))
    | .floatLit f => .ok (.float f)
    | .strLit s => .ok (.str s)
    | .boolLit b => .ok (.bool b)
    | .noneLit => .ok .pynone
    | .name s => lookupName s
    | .neg a => do
      let v ← evalE fuel a
      pyNeg v
    | .pos a => do
      let v ← evalE fuel a
      pyPos v
    | .bin op a b => do
      let va ← evalE fuel a
      let vb ← evalE fuel b
      pyBin op va vb
    | .cmp op a b => do
      let va ← evalE fuel a
      let vb ← evalE fuel b
      pyCmpB op va vb
    | .call f args => do
      let vf ← evalE fuel f
      let vargs ← args.mapM (evalE fuel)
      pyCall vf vargs
    | .attr a fld => do
      let _ ← evalE fuel a
      .ok (.attrv fld)

/-- Model of CPython's `float(str)`: optional surrounding whitespace, an
optional sign, then either a numeric literal (covering forms like `5`,
`5.`, `.5`, `1e3`; a value beyond the double range gives an infinity, as
`float("1e400")` does) or the words `inf`, `infinity`, `nan` (modelled in
lowercase only). -/
def strToFloatCore (sgn : Int) (r : List Char) : Except String PyFloat :=
  if r = "inf".data || r = "infinity".data then
    .ok (if 0 ≤ sgn then .inf else .ninf)
  else if r = "nan".data then .ok .nan
  else if (r.takeWhile Char.isDigit).isEmpty &&
      !(match r with
        | '.' :: d :: _ => d.isDigit
        | _ => false) then
    .error ("could not convert string to float")
  else
    match lexNumber r with
    | .ok (.intL n, []) => .ok (mkFloat ⟨sgn * (n : Int), 1⟩)
    | .ok (.floatL (.fin q), []) => .ok (mkFloat (if 0 ≤ sgn then q else qNeg q))
    | .ok (.floatL .inf, []) => .ok (if 0 ≤ sgn then .inf else .ninf)
    | _ => .error ("could not convert string to float")

/-- `float()` applied to a string. -/
def strToFloat (s : String) : Except String PyFloat :=
  let cs := (((s.data.dropWhile isSpaceC).reverse.dropWhile isSpaceC).reverse)
  match cs with
  | '+' :: r => strToFloatCore 1 r
  | '-' :: r => strToFloatCore (-1) r
  | r => strToFloatCore 1 r

/-- Model of CPython's `float(...)` conversion as applied on source line
103: floats pass through unchanged (including infinities and NaN), ints
convert exactly or raise OverflowError past the double range, bools become
0.0/1.0, strings are parsed, and every other type raises TypeError. -/
def pyFloatOf : PyVal → Except String PyFloat
  | .float f => .ok f
  | .int n =>
    if qLeB fBound ⟨n, 1⟩ || qLeB ⟨n, 1⟩ (qNeg fBound) then
      .error ("int too large to convert to float")
    else .ok (.fin ⟨n, 1⟩)
  | .bool b => .ok (.fin ⟨cond b 1 0, 1⟩)
  | .str s => strToFloat s
  | .pynone => .error ("float() argument must be a string or a real number, not NoneType")
  | .tfunc _ => .error ("float() argument must be a string or a real number")
  | .edict => .error ("float() argument must be a string or a real number, not dict")
  | .complexVal => .error ("cannot convert complex to float")
  | .attrv _ => .error ("float() argument must be a string or a real number")

/-- `eval(expression, {"__builtins__": {}}, allowed_names)` (source line
102): tokenize, parse, evaluate. -/
def pyEvalStr (s : String) : Except String PyVal :=
  match tokenize (s.data.length + 1) s.data with
  | .error m => .error m
  | .ok ts =>
    match parseTop ts with
    | .error m => .error m
    | .ok e => evalE (s.data.length + 1) e

/-- The `calculate` tool (source lines 84-105): evaluate the expression in
the restricted scope, convert the result with `float(...)`, and rewrap any
exception from either step as `ValueError("Invalid expression: " +
str(e))`. -/
def calculate (expression : String) : Except String PyFloat :=
  match pyEvalStr expression with
  | .ok v =>
    match pyFloatOf v with
    | .ok f => .ok f
    | .error m => .error ("Invalid expression: " ++ m)
  | .error m => .error ("Invalid expression: " ++ m)

/-!
The remaining five tool handlers receive two numbers each.  The protocol
layer delivers JSON numbers coerced to Python floats, which are finite, so
the handlers are modelled over ℚ (the exact value of a finite double; every
concrete value any claim evaluates is exactly representable, and the
spec's testable properties for these handlers are stated up to
floating-point tolerance).
-/

/-- The `add` tool (source lines 14-25): `return a + b`. -/
def add (a b : ℚ) : ℚ := a + b

/-- The `subtract` tool (source lines 27-38): `return a - b`. -/
def subtract (a b : ℚ) : ℚ := a - b

/-- The `multiply` tool (source lines 40-51): `return a * b`. -/
def multiply (a b : ℚ) : ℚ := a * b

/-- The `divide` tool (source lines 53-69): raises
`ValueError("Cannot divide by zero")` when `b == 0`, else `return a / b`. -/
def divide (a b : ℚ) : Except String ℚ :=
  if b = 0 then .error ("Cannot divide by zero") else .ok (a / b)

/-- Smallest magnitude beyond the double range, as a rational (the
counterpart of `fBound` for the handler layer). -/
def fBoundQ : ℚ := 2 ^ 1024 - 2 ^ 970

/-- Possible outcomes of the float `**` in the `power` handler: a finite
exact value, the symbolic double nearest to the real b^e for a positive
base and non-integral exponent, or a complex number (negative base,
non-integral exponent — CPython promotes to complex and returns it rather
than raising). -/
inductive PowOut where
  | num (x : ℚ)
  | symO (b e : ℚ)
  | cplx
deriving DecidableEq

/-- The `power` tool (source lines 71-82): `return base ** exponent`, i.e.
CPython's `float_pow` on two finite doubles (the protocol layer coerces the
arguments to floats): an integral exponent gives the power exactly in this
model — CPython rounds it to the nearest double, and raises
OverflowError("(34, 'Numerical result out of range')") when it is out of
the double range (verified: `2.0 ** 10000.0` and `0.5 ** -10000` raise;
no theorem below evaluates a result CPython would round); 0 to a negative
power raises ZeroDivisionError; a negative base with a non-integral
exponent returns a complex number; a zero base with a negative non-integral
exponent raises; and a positive base with a non-integral exponent is the
(irrational) real power, kept symbolic. -/
def power (base exponent : ℚ) : Except String PowOut :=
  if exponent.den = 1 then
    if base = 0 ∧ exponent < 0 then .error ("0.0 cannot be raised to a negative power")
    else if fBoundQ ≤ base ^ exponent.num ∨ base ^ exponent.num ≤ -fBoundQ then
      .error ("(34, Numerical result out of range)")
    else .ok (.num (base ^ exponent.num))
  else if base < 0 then .ok .cplx
  else if base = 0 then
    if exponent < 0 then .error ("0.0 cannot be raised to a negative power")
    else .ok (.num 0)
  else .ok (.symO base exponent)

/-- The fixed help text returned by the `calculator://help` resource
(source lines 107-133), reproduced byte for byte (the source is a
triple-quoted string opening with a newline and indented by four spaces). -/
def get_calculator_help : String :=
  "\n    Calculator MCP Server\n    \n    This server provides basic mathematical operations:\n    \n    - add(a, b) - Add two numbers\n    - subtract(a, b) - Subtract b from a\n    - multiply(a, b) - Multiply two numbers\n    - divide(a, b) - Divide a by b (b cannot be zero)\n    - power(base, exponent) - Calculate base raised to the power of exponent\n    - calculate(expression) - Evaluate a mathematical expression\n    \n    Examples:\n      add(5, 3) -> 8\n      subtract(10, 4) -> 6\n      multiply(2.5, 4) -> 10\n      divide(10, 2) -> 5\n      power(2, 3) -> 8\n      calculate(\"10 + 5 * 2\") -> 20\n    "

/-- The resource table: `@mcp.resource("calculator://help")` registers
exactly one resource key, backed by the pure function above; any other key
is unknown. -/
def resolveResource (uri : String) : Option String :=
  if uri = "calculator://help" then some get_calculator_help else none

/-- Text of `calculation_prompt` before the embedded expression. -/
def promptBefore : String := "Please evaluate this mathematical expression: "

/-- Text of `calculation_prompt` after the embedded expression. -/
def promptAfter : String := "\n    \nYou can use the calculator tools if needed.\n"

/-- The `calculation_prompt` template (source lines 135-148): an f-string
embedding the expression verbatim between two fixed pieces of text. -/
def calculation_prompt (expression : String) : String :=
  "Please evaluate this mathematical expression: " ++ expression ++
    "\n    \nYou can use the calculator tools if needed.\n"

/-- Whether an `Except` is an error. -/
def isErr {ε α : Type} : Except ε α → Bool
  | .error _ => true
  | .ok _ => false

/-- Whether `s` is a (non-keyword-checked) Python identifier in the ASCII
fragment: a letter or underscore followed by letters, digits and
underscores. -/
def isPyIdent (s : String) : Bool :=
  match s.data with
  | [] => false
  | c :: cs => identStart c && cs.all identChar

/-- Does `pin` occur at the start of `hay`? -/
def isPreC : List Char → List Char → Bool
  | [], _ => true
  | _ :: _, [] => false
  | p :: ps, c :: cs => p = c && isPreC ps cs

/-- Does `pin` occur contiguously anywhere in `hay`? -/
def containsSeq (pin : List Char) : List Char → Bool
  | [] => isPreC pin []
  | c :: cs => isPreC pin (c :: cs) || containsSeq pin cs

/-- Does the string `pin` occur as a substring of `hay`? -/
def containsSub (hay pin : String) : Bool := containsSeq pin.data hay.data

deriving instance DecidableEq for Except

/-!  Helper lemmas shared by the claim theorems. -/

/-- A list is a prefix of itself followed by anything. -/
theorem isPreC_append (p t : List Char) : isPreC p (p ++ t) = true := by
  induction p with
  | nil => simp [isPreC]
  | cons c cs ih => simp [isPreC, ih]

/-- A prefix occurrence is an occurrence. -/
theorem containsSeq_of_isPreC (pin hay : List Char) (h : isPreC pin hay = true) :
    containsSeq pin hay = true := by
  cases hay with
  | nil => simpa [containsSeq] using h
  | cons c cs => simp [containsSeq, h]

/-- Occurrences survive prepending. -/
theorem containsSeq_append_left (pin pre l : List Char)
    (h : containsSeq pin l = true) : containsSeq pin (pre ++ l) = true := by
  induction pre with
  | nil => simpa using h
  | cons c cs ih => simp [containsSeq, ih]

/-- Tokenizing a string of identifier characters yields that one identifier
token. -/
theorem tok_ident (c : Char) (cs : List Char) (h1 : identStart c = true)
    (h2 : cs.all identChar = true) :
    tokenize (cs.length + 2) (c :: cs) = .ok [.ident (String.mk (c :: cs))] := by
  have hmem : ∀ x ∈ cs, identChar x := by
    intro x hx
    exact List.all_eq_true.mp h2 x hx
  have ht : cs.takeWhile identChar = cs := List.takeWhile_eq_self_iff.mpr hmem
  have hd : cs.dropWhile identChar = [] := List.dropWhile_eq_nil_iff.mpr hmem
  show tokenize (cs.length + 1 + 1) (c :: cs) = _
  simp [tokenize, h1, ht, hd, Except.map]

/-- Parsing a lone identifier that is none of the compile-time constants
yields a name expression. -/
theorem parse_single_ident (s : String) (h1 : s ≠ "True") (h2 : s ≠ "False")
    (h3 : s ≠ "None") (h4 : s ≠ "__debug__") :
    parseTop [.ident s] = .ok (.name s) := by
  simp [parseTop, parseExpr, parseUnary, parsePrim, parseAtom, parsePostRest,
    parseMulRest, parseAddRest, cmpOfTok, h1, h2, h3, h4]

/-- Evaluating a name expression is exactly a name lookup. -/
theorem eval_single_name (n : Nat) (s : String) :
    evalE (n + 1) (.name s) = lookupName s := by
  simp [evalE]

set_option maxRecDepth 2000 in
/-- C1: the claim says every expression containing a comparison (among other
non-arithmetic forms) fails with InvalidExpression rather than returning a
value.  The code instead evaluates `"1 < 2"` with `eval` to `True` and
returns `float(True) = 1.0`: the eval-with-reduced-globals scheme does not
restrict which expression forms run, which is the known sandbox gap the
spec's design notes flag in the original code. -/
theorem C1_comparison_returns_value :
    calculate ("1 < 2") = .ok (.fin ⟨1, 1⟩) := by decide

set_option maxRecDepth 2000 in
/-- C2 counterexample: the claim says a result not representable as a finite
real fails with InvalidExpression and that `calculate` never returns an
infinity, but the float literal `2e308` overflows to infinity at conversion
and `float(inf)` passes it straight through: `calculate("2e308")` returns
positive infinity. -/
theorem C2_overflow_returns_infinity :
    calculate ("2e308") = .ok .inf := by decide

set_option maxRecDepth 4000 in
/-- C2 amended: `calculate` fails with an InvalidExpression error when the
evaluation raises — in particular `calculate("1/0")` fails on the
ZeroDivisionError — but an evaluation that produces an infinite float
returns that infinity instead of failing (e.g. `calculate("2e308")`). -/
theorem C2_div_zero_fails_overflow_passes :
    calculate ("1/0") = .error ("Invalid expression: division by zero") ∧
      calculate ("2e308") = .ok .inf := by decide

set_option maxRecDepth 2000 in
/-- C3 counterexample: the claim says every expression referencing an
identifier outside the whitelist {abs, max, min, pow, round} fails with
InvalidExpression, but CPython's compiler folds the identifier `__debug__`
to the constant `True` before any name lookup, so the restricted `eval`
never consults the whitelist for it: `calculate("__debug__")` returns 1.0
(verified against CPython 3.11). -/
theorem C3_debug_constant_returns_value :
    isPyIdent ("__debug__") = true ∧
      calculate ("__debug__") = .ok (.fin ⟨1, 1⟩) := by decide

set_option maxRecDepth 2000 in
/-- C3 amended: referencing any identifier outside the whitelist fails with
an InvalidExpression error, except the identifiers the compiler folds to
constants before name lookup — `True`, `False` and `__debug__` (`None` is
also folded, but `float(None)` then fails, so `calculate` still errors on
it, as it does on the `__builtins__` binding that `eval` injects).
`__import__('os')`, `os.system('x')`, and whitelisted calls with the wrong
arity such as `abs(1, 2)` and `pow(2)` all fail, with CPython's messages
(quote characters dropped). -/
theorem C3_whitelist_rejection_amended :
    (∀ s : String, isPyIdent s = true → s ≠ "abs" → s ≠ "max" → s ≠ "min" →
        s ≠ "pow" → s ≠ "round" → s ≠ "True" → s ≠ "False" →
        s ≠ "__debug__" → isErr (calculate s) = true) ∧
      calculate ("__import__('os')") =
        .error ("Invalid expression: name __import__ is not defined") ∧
      calculate ("os.system('x')") =
        .error ("Invalid expression: name os is not defined") ∧
      calculate ("abs(1, 2)") =
        .error ("Invalid expression: abs() takes exactly one argument (2 given)") ∧
      calculate ("pow(2)") =
        .error ("Invalid expression: pow() missing required argument exp (pos 2)") := by
  refine ⟨?_, by decide, by decide, by decide, by decide⟩
  intro s h hab hmx hmn hpw hrd htr hfl hdb
  by_cases hsN : s = "None"
  · subst hsN; decide
  by_cases hsB : s = "__builtins__"
  · subst hsB; decide
  rcases hs : s.data with _ | ⟨c, cs⟩
  · rw [isPyIdent, hs] at h
    exact absurd h (by decide)
  · rw [isPyIdent, hs] at h
    simp only [Bool.and_eq_true] at h
    obtain ⟨h1, h2⟩ := h
    have hss : String.mk (c :: cs) = s := by
      cases s
      simp at hs
      simp [hs]
    have htok : tokenize (s.data.length + 1) s.data = .ok [.ident s] := by
      rw [hs]
      have := tok_ident c cs h1 h2
      simpa [hss] using this
    have hparse : parseTop [.ident s] = .ok (.name s) :=
      parse_single_ident s htr hfl hsN hdb
    have hlook : lookupName s = .error ("name " ++ s ++ " is not defined") := by
      simp [lookupName, hab, hmx, hmn, hpw, hrd, hsB]
    have hpe : pyEvalStr s = .error ("name " ++ s ++ " is not defined") := by
      unfold pyEvalStr
      rw [htok]
      simp only [hparse, hs, evalE, List.length_cons, hlook]
    simp [calculate, hpe, isErr]

/-- C3 witness: the identifier `osx` is outside the whitelist and none of
the folded constants, and `calculate("osx")` fails. -/
theorem C3_whitelist_rejection_witness :
    isPyIdent ("osx") = true ∧ isErr (calculate ("osx")) = true :=
  ⟨by decide,
    C3_whitelist_rejection_amended.1 ("osx") (by decide) (by decide) (by decide)
      (by decide) (by decide) (by decide) (by decide) (by decide) (by decide)⟩

/-- C4 counterexample: the claim says `power` fails with InvalidArgument
whenever real exponentiation is undefined, e.g. a negative base with a
fractional exponent.  The handler is `return base ** exponent`, and CPython
promotes that case to a complex result: `power(-2, 0.5)` returns a complex
value instead of failing. -/
theorem C4_neg_base_frac_exp_returns_complex :
    power (-2) (1/2) = .ok .cplx := by
  have h : ((1:ℚ)/2).den = 2 := by norm_num
  simp [power, h]

set_option exponentiation.threshold 20000 in
/-- C4 amended: `power` is CPython's float `**` on the coerced float
arguments: `power(2, 3) = 8.0` exactly, and `power(2, 0.5)` is the double
approximating the real (irrational) square root of 2; it never fails with
InvalidArgument — a negative base with a fractional exponent returns a
complex value rather than failing, zero to a negative power raises
ZeroDivisionError, and an integral-exponent result beyond the double range
raises OverflowError, e.g. `power(2, 10000)`. -/
theorem C4_power_python_semantics :
    power 2 3 = .ok (.num 8) ∧
      power 2 (1/2) = .ok (.symO 2 (1/2)) ∧
      power (-2) (1/2) = .ok .cplx ∧
      power 0 (-1) = .error ("0.0 cannot be raised to a negative power") ∧
      power 2 10000 = .error ("(34, Numerical result out of range)") := by
  refine ⟨?_, ?_, ?_, ?_, ?_⟩
  · have h : (3:ℚ).den = 1 := rfl
    have h2 : (3:ℚ).num = 3 := rfl
    have h3 : ¬((2:ℚ) = 0 ∧ (3:ℚ) < 0) := by norm_num
    rw [power, if_pos h, if_neg h3, h2]
    have h4 : ((2:ℚ) ^ (3:ℤ)) = 8 := by norm_num
    rw [h4]
    have h5 : ¬(fBoundQ ≤ (8:ℚ) ∨ (8:ℚ) ≤ -fBoundQ) := by
      rw [fBoundQ]
      norm_num
    rw [if_neg h5]
  · have h : ((1:ℚ)/2).den = 2 := by norm_num
    simp [power, h]
  · have h : ((1:ℚ)/2).den = 2 := by norm_num
    simp [power, h]
  · have h : (-1:ℚ).den = 1 := rfl
    simp [power, h]
  · have h : (10000:ℚ).den = 1 := rfl
    have h2 : (10000:ℚ).num = 10000 := rfl
    have h3 : ¬((2:ℚ) = 0 ∧ (10000:ℚ) < 0) := by norm_num
    rw [power, if_pos h, if_neg h3, h2]
    have h5 : fBoundQ ≤ (2:ℚ) ^ (10000:ℤ) ∨ (2:ℚ) ^ (10000:ℤ) ≤ -fBoundQ := by
      left
      rw [fBoundQ]
      norm_num
    rw [if_pos h5]

/-- C5: `divide(a, b)` fails — with the ValueError("Cannot divide by zero")
that the protocol layer surfaces as the DivisionByZero failure — exactly
when b is zero, and returns a / b otherwise; in particular
`divide(10, 2) = 5.0` and `divide(10, 0)` fails. -/
theorem C5_divide_iff_zero :
    (∀ a b : ℚ,
        (divide a b = .error ("Cannot divide by zero") ↔ b = 0) ∧
          (b ≠ 0 → divide a b = .ok (a / b))) ∧
      divide 10 2 = .ok 5 ∧ divide 10 0 = .error ("Cannot divide by zero") := by
  refine ⟨fun a b => ?_, ?_, ?_⟩
  · by_cases hb : b = 0 <;> simp [divide, hb]
  · have h2 : (2:ℚ) ≠ 0 := by norm_num
    rw [divide, if_neg h2]
    norm_num
  · simp [divide]

/-- C5 witness: the division clause evaluated at (10, 2). -/
theorem C5_divide_witness : (2:ℚ) ≠ 0 ∧ divide 10 2 = .ok (10 / 2) :=
  ⟨by norm_num, (C5_divide_iff_zero.1 10 2).2 (by norm_num)⟩

/-- C6: `add`, `subtract` and `multiply` are total (they are plain Lean
functions into ℚ, so they cannot fail) and return exactly a + b, a - b and
a * b. -/
theorem C6_add_subtract_multiply_exact :
    ∀ a b : ℚ, add a b = a + b ∧ subtract a b = a - b ∧ multiply a b = a * b :=
  fun _ _ => ⟨rfl, rfl, rfl⟩

set_option maxRecDepth 8000 in
/-- C7: `calculate` parses with standard Python operator precedence:
multiplication binds tighter than addition (`"10 + 5 * 2"` is 20.0, not
30.0), calls bind tightest (`"max(3, 7) - min(1, 2)"` is 6.0), and
exponentiation is right-associative (`"2 ** 3 ** 2"` is 2^9 = 512.0, not
8^2 = 64.0). -/
theorem C7_operator_precedence :
    calculate ("10 + 5 * 2") = .ok (.fin ⟨20, 1⟩) ∧
      calculate ("max(3, 7) - min(1, 2)") = .ok (.fin ⟨6, 1⟩) ∧
      calculate ("2 ** 3 ** 2") = .ok (.fin ⟨512, 1⟩) := by decide

set_option maxRecDepth 8000 in
/-- C8: resolving `calculator://help` succeeds with the fixed help string
(the resource function is a constant of the model, so every call returns
this same string), and that string describes all six operations and has a
usage-examples section. -/
theorem C8_help_resource_fixed :
    resolveResource ("calculator://help") = some get_calculator_help ∧
      containsSub get_calculator_help ("- add(a, b) - Add two numbers") = true ∧
      containsSub get_calculator_help ("- subtract(a, b) - Subtract b from a") = true ∧
      containsSub get_calculator_help ("- multiply(a, b) - Multiply two numbers") = true ∧
      containsSub get_calculator_help ("- divide(a, b) - Divide a by b (b cannot be zero)") = true ∧
      containsSub get_calculator_help
        ("- power(base, exponent) - Calculate base raised to the power of exponent") = true ∧
      containsSub get_calculator_help
        ("- calculate(expression) - Evaluate a mathematical expression") = true ∧
      containsSub get_calculator_help ("Examples:") = true ∧
      containsSub get_calculator_help ("add(5, 3) -> 8") = true := by decide

/-- C9: `calculation_prompt` never fails (it is a total function), embeds
the given string verbatim between two fixed pieces of text — so the
expression occurs as a substring, unvalidated and untransformed — and is
deterministic (a pure function of its argument). -/
theorem C9_prompt_verbatim :
    ∀ s : String,
      calculation_prompt s = promptBefore ++ s ++ promptAfter ∧
        containsSub (calculation_prompt s) s = true := by
  intro s
  refine ⟨rfl, ?_⟩
  show containsSeq s.data (calculation_prompt s).data = true
  have h : (calculation_prompt s).data =
      promptBefore.data ++ (s.data ++ promptAfter.data) := by
    show (promptBefore ++ s ++ promptAfter).data = _
    simp [String.data_append]
  rw [h]
  exact containsSeq_append_left _ _ _
    (containsSeq_of_isPreC _ _ (isPreC_append s.data promptAfter.data))

set_option maxRecDepth 4000 in
/-- C10: for every expression string, `calculate` either returns the
`float(...)` conversion of the evaluated value — so integer and boolean
results come back as numbers: `"7 + 13"` gives 20.0 and the boolean
`"2 < 3"` gives 1.0 — or fails with a single error whose message begins
with "Invalid expression: "; no exception escapes unwrapped. -/
theorem C10_float_conversion_or_wrapped_error :
    (∀ s : String,
        (∃ f, calculate s = .ok f) ∨
          ∃ m, calculate s = .error ("Invalid expression: " ++ m)) ∧
      calculate ("7 + 13") = .ok (.fin ⟨20, 1⟩) ∧
      calculate ("2 < 3") = .ok (.fin ⟨1, 1⟩) := by
  refine ⟨?_, by decide, by decide⟩
  intro s
  unfold calculate
  cases h : pyEvalStr s with
  | error m => right; exact ⟨m, rfl⟩
  | ok v =>
    cases h2 : pyFloatOf v with
    | ok f => left; exact ⟨f, by simp [h2]⟩
    | error m => right; exact ⟨m, by simp [h2]⟩

end CalcSrv
